import Mathlib

/- Shallow embedding of the nutrition computation and validation core of the
   nutrient_be repository (Go).  Conventions of the embedding:
   - Go float64 values are embedded as exact rationals (ℚ); the arithmetic of
     the source is plain field arithmetic, which ℚ models exactly.
   - Go strings are Lean String; Go maps from language code to text are
     association lists (List (String × String)), with lookup = first match.
   - MongoDB ObjectID values are embedded as String; hex decoding and
     persistence are plumbing outside the verified core, so repository reads
     are passed in as lookup functions and writes are the returned value.
   - time.Time instants are embedded as rational numbers of hours since an
     arbitrary epoch; time.Now() is passed in as a parameter.
   - Plumbing-only struct fields (database ids, search terms, created/updated
     audit fields on FoodItem, loggers, contexts) are omitted where no claim
     depends on them. -/

namespace NutrientBE

/-- domain.MacroNutrients (internal/domain): protein, carbohydrates, fat,
fiber, sugar in grams. -/
structure MacroNutrients where
  Protein : ℚ
  Carbohydrates : ℚ
  Fat : ℚ
  Fiber : ℚ
  Sugar : ℚ
  deriving DecidableEq, Repr

/-- domain.MicroNutrients (internal/domain). -/
structure MicroNutrients where
  VitaminA : ℚ
  VitaminC : ℚ
  Calcium : ℚ
  Iron : ℚ
  Sodium : ℚ
  Potassium : ℚ
  deriving DecidableEq, Repr

/-- The Go zero value domain.MacroNutrients\x7b\x7d. -/
def zeroMacros : MacroNutrients := ⟨0, 0, 0, 0, 0⟩

/-- The Go zero value domain.MicroNutrients\x7b\x7d. -/
def zeroMicros : MicroNutrients := ⟨0, 0, 0, 0, 0, 0⟩

/-- request.MultiLanguage: a map from language code to text, embedded as an
association list. -/
abbrev MultiLanguage : Type := List (String × String)

/-- MultiLanguage.Get: value for a language code, or "" when absent. -/
def mlGet (m : MultiLanguage) (lang : String) : String :=
  match List.find? (fun e => e.1 == lang) m with
  | some e => e.2
  | none => ""

/-- domain.ServingSize. -/
structure ServingSize where
  Unit : String
  Amount : ℚ
  Description : String
  GramEquivalent : ℚ
  deriving DecidableEq, Repr

/-- domain.FoodItem, restricted to the fields the verified core reads. -/
structure FoodItem where
  Name : MultiLanguage
  Category : String
  Macros : MacroNutrients
  Micros : MicroNutrients
  ServingSizes : List ServingSize
  Calories : ℚ
  deriving DecidableEq

/-- The error produced by the calculator when the requested serving unit is
not in the serving-size table of the food; it carries the unit and the food name
(the Go error message interpolates both). -/
inductive CalcError where
  | servingUnitNotFound (unit : String) (foodName : MultiLanguage)
  deriving DecidableEq

/-- The four-value return of calculator.CalculateNutrientsForServing
(calories, macros, micros, error), mirroring the Go multi-value return. -/
structure CalcOut where
  calories : ℚ
  macros : MacroNutrients
  micros : MicroNutrients
  err : Option CalcError
  deriving DecidableEq

/-- calculator.CalculateNutrientsForServing: resolve the first serving-size
entry whose unit matches, convert to grams, scale the per-100g baseline.
On a missing unit it returns zero calories, zero macro and micro vectors and
the not-found error, exactly as the Go function does. -/
def CalculateNutrientsForServing (food : FoodItem) (servingUnit : String)
    (amount : ℚ) : CalcOut :=
  match List.find? (fun s => s.Unit == servingUnit) food.ServingSizes with
  | none =>
      ⟨0, zeroMacros, zeroMicros,
        some (CalcError.servingUnitNotFound servingUnit food.Name)⟩
  | some servingSize =>
      let totalGrams := (amount / servingSize.Amount) * servingSize.GramEquivalent
      let multiplier := totalGrams / 100
      ⟨food.Calories * multiplier,
        ⟨food.Macros.Protein * multiplier,
         food.Macros.Carbohydrates * multiplier,
         food.Macros.Fat * multiplier,
         food.Macros.Fiber * multiplier,
         food.Macros.Sugar * multiplier⟩,
        ⟨food.Micros.VitaminA * multiplier,
         food.Micros.VitaminC * multiplier,
         food.Micros.Calcium * multiplier,
         food.Micros.Iron * multiplier,
         food.Micros.Sodium * multiplier,
         food.Micros.Potassium * multiplier⟩,
        none⟩

/-- The loop body of calculator.SumMacros: componentwise accumulation. -/
def macStep (result m : MacroNutrients) : MacroNutrients :=
  ⟨result.Protein + m.Protein,
   result.Carbohydrates + m.Carbohydrates,
   result.Fat + m.Fat,
   result.Fiber + m.Fiber,
   result.Sugar + m.Sugar⟩

/-- calculator.SumMacros: running componentwise accumulation over the list,
starting from the zero value. -/
def SumMacros (macrosList : List MacroNutrients) : MacroNutrients :=
  macrosList.foldl macStep zeroMacros

/-- The loop body of calculator.SumMicros: componentwise accumulation. -/
def micStep (result m : MicroNutrients) : MicroNutrients :=
  ⟨result.VitaminA + m.VitaminA,
   result.VitaminC + m.VitaminC,
   result.Calcium + m.Calcium,
   result.Iron + m.Iron,
   result.Sodium + m.Sodium,
   result.Potassium + m.Potassium⟩

/-- calculator.SumMicros: running componentwise accumulation over the list,
starting from the zero value. -/
def SumMicros (microsList : List MicroNutrients) : MicroNutrients :=
  microsList.foldl micStep zeroMicros

/-! Food validator (internal/pkg/validator/food_validator.go). -/

/-- Errors of the food validator stages modelled here, carrying the data the
Go error messages interpolate. -/
inductive FoodError where
  | nameNoLanguage
  | nameNoEnglish
  | nameBlank (lang : String)
  | nameTooLong (lang : String)
  | descriptionTooLong (lang : String)
  | caloriesMismatch (declared expected diff tolerance : ℚ)
  deriving DecidableEq

/-- NewFoodValidator: maxNameLength. -/
def foodMaxNameLength : Nat := 200

/-- NewFoodValidator: maxDescriptionLength. -/
def foodMaxDescriptionLength : Nat := 1000

/-- NewFoodValidator: caloriesTolerance (±10 calories). -/
def caloriesTolerance : ℚ := 10

/-- request.CreateFoodRequest, restricted to the fields the modelled
validator stages read (the request macro/micro structs have the same fields
as the domain ones and are embedded by the same Lean structures). -/
structure CreateFoodRequest where
  Name : MultiLanguage
  Description : MultiLanguage
  Macros : MacroNutrients
  Micros : MicroNutrients
  ServingSizes : List ServingSize
  Calories : ℚ
  deriving DecidableEq

/-- The per-entry loop of FoodValidator.validateName: a blank-after-trim
value for any language is an error, as is a trimmed value longer than
maxNameLength bytes. -/
def validateNameLoop : List (String × String) → Option FoodError
  | [] => none
  | (lang, value) :: rest =>
      let trimmed := value.trim
      if trimmed = "" then some (FoodError.nameBlank lang)
      else if foodMaxNameLength < trimmed.utf8ByteSize then
        some (FoodError.nameTooLong lang)
      else validateNameLoop rest

/-- FoodValidator.validateName. -/
def validateName (name : MultiLanguage) : Option FoodError :=
  if List.isEmpty name then some FoodError.nameNoLanguage
  else if mlGet name "en" = "" then some FoodError.nameNoEnglish
  else validateNameLoop name

/-- The per-entry loop of FoodValidator.validateDescription: only a
non-blank over-long value is an error; blank-after-trim values pass. -/
def validateDescriptionLoop : List (String × String) → Option FoodError
  | [] => none
  | (lang, value) :: rest =>
      let trimmed := value.trim
      if trimmed ≠ "" ∧ foodMaxDescriptionLength < trimmed.utf8ByteSize then
        some (FoodError.descriptionTooLong lang)
      else validateDescriptionLoop rest

/-- FoodValidator.validateDescription. -/
def validateDescription (desc : MultiLanguage) : Option FoodError :=
  if List.isEmpty desc then none
  else validateDescriptionLoop desc

/-- FoodValidator.validateCaloriesConsistency: expected calories are
protein*4 + carbohydrates*4 + fat*9 + fiber*2, and the declared value must
be within ±caloriesTolerance of it. -/
def validateCaloriesConsistency (req : CreateFoodRequest) : Option FoodError :=
  let expectedCalories := req.Macros.Protein * 4 + req.Macros.Carbohydrates * 4
    + req.Macros.Fat * 9 + req.Macros.Fiber * 2
  let diff := req.Calories - expectedCalories
  if diff < -caloriesTolerance ∨ caloriesTolerance < diff then
    some (FoodError.caloriesMismatch req.Calories expectedCalories diff
      caloriesTolerance)
  else none

/-! Meal-plan validator (unnamed/part_002, package validator):
validateDateRange.  Instants are rationals measured in hours; `today` is the
truncated time.Now() the Go code computes. -/

/-- Go float-to-int conversion truncates toward zero. -/
def ratTrunc (q : ℚ) : ℤ := if 0 ≤ q then ⌊q⌋ else ⌈q⌉

/-- Errors of MealPlanValidator.validateDateRange. -/
inductive PlanError where
  | startInPast
  | endNotAfterStart
  | rangeTooShort (minDays : ℤ)
  | rangeTooLong (maxDays : ℤ)
  deriving DecidableEq

/-- NewMealPlanValidator: minDateRangeDays. -/
def minDateRangeDays : ℤ := 1

/-- NewMealPlanValidator: maxDateRangeDays. -/
def maxDateRangeDays : ℤ := 90

/-- MealPlanValidator.validateDateRange: start must not be before today,
end must be after start, and the whole-day difference (hours / 24 truncated
to int, as Go computes it) must lie within the configured window. -/
def validateDateRange (today startDate endDate : ℚ) : Option PlanError :=
  if startDate < today then some PlanError.startInPast
  else if ¬ startDate < endDate then some PlanError.endNotAfterStart
  else
    let daysDiff := ratTrunc ((endDate - startDate) / 24)
    if daysDiff < minDateRangeDays then
      some (PlanError.rangeTooShort minDateRangeDays)
    else if maxDateRangeDays < daysDiff then
      some (PlanError.rangeTooLong maxDateRangeDays)
    else none

/-! Meal-template validators.  The repository carries two parallel
implementations: the one in unnamed/part_017 (package validator; its
ValidateCreateRequest / ValidateUpdateRequest / ValidateAddFoodRequest
methods are the ones called from the HTTP handlers), and the one in
internal/pkg/validator/meal_validator.go (ValidateCreateTemplateRequest),
which has different bounds and no duplicate check. -/

/-- request.MealTemplateFoodItemRequest. -/
structure MealTemplateFoodItemRequest where
  FoodItemID : String
  ServingUnit : String
  Amount : ℚ
  deriving DecidableEq

/-- request.CreateMealTemplateRequest. -/
structure CreateMealTemplateRequest where
  Name : String
  Description : String
  MealType : String
  FoodItems : List MealTemplateFoodItemRequest
  Tags : List String
  IsPublic : Bool
  deriving DecidableEq

/-- Errors of the part_017 MealValidator, indexed as the Go messages are
(item positions are reported 1-based). -/
inductive MealError where
  | nameEmpty
  | nameTooLong
  | descriptionTooLong
  | invalidMealType (t : String)
  | noFoodItems
  | blankFoodItemID (idx : Nat)
  | blankServingUnit (idx : Nat)
  | nonPositiveAmount (idx : Nat)
  | duplicateFoodItem (idx : Nat)
  | tooManyTags
  | blankTag (idx : Nat)
  | tagTooLong (idx : Nat)
  deriving DecidableEq

/-- The part_017 MealValidator.validateName (maxNameLength = 200). -/
def mealValidateName (name : String) : Option MealError :=
  let trimmed := name.trim
  if trimmed = "" then some MealError.nameEmpty
  else if 200 < trimmed.utf8ByteSize then some MealError.nameTooLong
  else none

/-- The part_017 MealValidator.validateDescription (maxDescriptionLength =
1000, untrimmed length as in the source). -/
def mealValidateDescription (description : String) : Option MealError :=
  if 1000 < description.utf8ByteSize then some MealError.descriptionTooLong
  else none

/-- The part_017 MealValidator.validateMealType. -/
def mealValidateMealType (mealType : String) : Option MealError :=
  if mealType = "breakfast" ∨ mealType = "lunch" ∨ mealType = "dinner"
      ∨ mealType = "snack" then none
  else some (MealError.invalidMealType mealType)

/-- The loop of part_017 MealValidator.validateFoodItems: per item, blank
(after trim) food id, blank serving unit and non-positive amount are errors,
and a repeat of an already-seen "foodItemID:servingUnit" key is the
duplicate error.  `seen` models the Go map used as a set of keys. -/
def mealFoodItemsLoop :
    List MealTemplateFoodItemRequest → Nat → List String → Option MealError
  | [], _, _ => none
  | item :: rest, i, seen =>
      if item.FoodItemID.trim = "" then some (MealError.blankFoodItemID (i + 1))
      else if item.ServingUnit.trim = "" then
        some (MealError.blankServingUnit (i + 1))
      else if item.Amount ≤ 0 then some (MealError.nonPositiveAmount (i + 1))
      else
        let key := item.FoodItemID ++ ":" ++ item.ServingUnit
        if key ∈ seen then some (MealError.duplicateFoodItem (i + 1))
        else mealFoodItemsLoop rest (i + 1) (key :: seen)

/-- The part_017 MealValidator.validateFoodItems. -/
def mealValidateFoodItems
    (foodItems : List MealTemplateFoodItemRequest) : Option MealError :=
  if List.isEmpty foodItems then some MealError.noFoodItems
  else mealFoodItemsLoop foodItems 0 []

/-- The loop of part_017 MealValidator.validateTags (maxTagLength = 50). -/
def mealTagsLoop : List String → Nat → Option MealError
  | [], _ => none
  | tag :: rest, i =>
      let trimmed := tag.trim
      if trimmed = "" then some (MealError.blankTag (i + 1))
      else if 50 < trimmed.utf8ByteSize then some (MealError.tagTooLong (i + 1))
      else mealTagsLoop rest (i + 1)

/-- The part_017 MealValidator.validateTags (maxTags = 20). -/
def mealValidateTags (tags : List String) : Option MealError :=
  if 20 < tags.length then some MealError.tooManyTags
  else mealTagsLoop tags 0

/-- The part_017 MealValidator.ValidateCreateRequest: name, then description
(only when non-empty), then meal type, then food items, then tags (only
when non-empty); the error of the first failing stage is returned. -/
def MealValidateCreateRequest (req : CreateMealTemplateRequest) : Option MealError :=
  match mealValidateName req.Name with
  | some e => some e
  | none =>
  match (if req.Description ≠ "" then mealValidateDescription req.Description
         else none) with
  | some e => some e
  | none =>
  match mealValidateMealType req.MealType with
  | some e => some e
  | none =>
  match mealValidateFoodItems req.FoodItems with
  | some e => some e
  | none =>
  if 0 < req.Tags.length then mealValidateTags req.Tags else none

/-- Errors of the internal/pkg/validator MealValidator. -/
inductive PkgMealError where
  | nameEmpty
  | nameTooLong
  | descriptionTooLong
  | invalidMealType (t : String)
  | noFoodItems
  | tooManyFoodItems (n : Nat)
  | missingFoodItemID (idx : Nat)
  | invalidServingUnit (idx : Nat) (unit : String)
  | nonPositiveAmount (idx : Nat)
  | amountTooLarge (idx : Nat)
  | tooManyTags (n : Nat)
  | blankTag (idx : Nat)
  | tagTooLong (idx : Nat)
  deriving DecidableEq

/-- The internal/pkg/validator MealValidator.validateName (maxNameLength =
100). -/
def pkgValidateName (name : String) : Option PkgMealError :=
  let trimmed := name.trim
  if trimmed = "" then some PkgMealError.nameEmpty
  else if 100 < trimmed.utf8ByteSize then some PkgMealError.nameTooLong
  else none

/-- The internal/pkg/validator MealValidator.validateMealType. -/
def pkgValidateMealType (mealType : String) : Option PkgMealError :=
  if mealType = "breakfast" ∨ mealType = "lunch" ∨ mealType = "dinner"
      ∨ mealType = "snack" then none
  else some (PkgMealError.invalidMealType mealType)

/-- The fixed serving-unit table shared by the validators. -/
def validServingUnit (u : String) : Bool :=
  u == "gram" || u == "kg" || u == "piece" || u == "cup" || u == "ml" || u == "box"

/-- The loop of internal/pkg/validator MealValidator.validateFoodItems:
untrimmed emptiness check on the id, serving unit restricted to the fixed
table, amount in (0, 10000]; there is no duplicate check in this
implementation. -/
def pkgFoodItemsLoop :
    List MealTemplateFoodItemRequest → Nat → Option PkgMealError
  | [], _ => none
  | item :: rest, i =>
      if item.FoodItemID = "" then some (PkgMealError.missingFoodItemID (i + 1))
      else if ¬ validServingUnit item.ServingUnit then
        some (PkgMealError.invalidServingUnit (i + 1) item.ServingUnit)
      else if item.Amount ≤ 0 then some (PkgMealError.nonPositiveAmount (i + 1))
      else if 10000 < item.Amount then some (PkgMealError.amountTooLarge (i + 1))
      else pkgFoodItemsLoop rest (i + 1)

/-- The internal/pkg/validator MealValidator.validateFoodItems
(maxFoodItemsPerMeal = 50). -/
def pkgValidateFoodItems
    (items : List MealTemplateFoodItemRequest) : Option PkgMealError :=
  if List.isEmpty items then some PkgMealError.noFoodItems
  else if 50 < items.length then some (PkgMealError.tooManyFoodItems items.length)
  else pkgFoodItemsLoop items 0

/-- The loop of internal/pkg/validator MealValidator.validateTags. -/
def pkgTagsLoop : List String → Nat → Option PkgMealError
  | [], _ => none
  | tag :: rest, i =>
      let trimmed := tag.trim
      if trimmed = "" then some (PkgMealError.blankTag (i + 1))
      else if 50 < trimmed.utf8ByteSize then some (PkgMealError.tagTooLong (i + 1))
      else pkgTagsLoop rest (i + 1)

/-- The internal/pkg/validator MealValidator.validateTags (maxTagsPerMeal =
10). -/
def pkgValidateTags (tags : List String) : Option PkgMealError :=
  if 10 < tags.length then some (PkgMealError.tooManyTags tags.length)
  else pkgTagsLoop tags 0

/-- The internal/pkg/validator MealValidator.ValidateCreateTemplateRequest:
name, description bound (only when non-empty), meal type, food items, tags
(always). -/
def PkgValidateCreateTemplateRequest
    (req : CreateMealTemplateRequest) : Option PkgMealError :=
  match pkgValidateName req.Name with
  | some e => some e
  | none =>
  match (if req.Description ≠ "" ∧ 500 < req.Description.utf8ByteSize then
           some PkgMealError.descriptionTooLong
         else none) with
  | some e => some e
  | none =>
  match pkgValidateMealType req.MealType with
  | some e => some e
  | none =>
  match pkgValidateFoodItems req.FoodItems with
  | some e => some e
  | none =>
  pkgValidateTags req.Tags

/-! Meal template service (unnamed/part_027, package service).  Repository
access is passed in as lookup functions; persistence writes are the
returned value; time.Now() and the freshly generated ObjectID are
parameters. -/

/-- domain.MealTemplateFoodItem: a computed line item. -/
structure MealTemplateFoodItem where
  FoodItemID : String
  FoodName : String
  ServingUnit : String
  Amount : ℚ
  Calories : ℚ
  Macros : MacroNutrients
  Micros : MicroNutrients
  deriving DecidableEq

/-- domain.MealTemplate. -/
structure MealTemplate where
  ID : String
  UserID : String
  Name : String
  Description : String
  MealType : String
  FoodItems : List MealTemplateFoodItem
  TotalCalories : ℚ
  TotalMacros : MacroNutrients
  TotalMicros : MicroNutrients
  Tags : List String
  IsPublic : Bool
  CreatedAt : ℚ
  UpdatedAt : ℚ
  deriving DecidableEq

/-- request.UpdateMealTemplateRequest: optional fields model Go nil
(Option.none) against present values; empty string means "not supplied"
for the plain string fields, as the service treats it. -/
structure UpdateMealTemplateRequest where
  Name : String
  Description : String
  MealType : String
  FoodItems : Option (List MealTemplateFoodItemRequest)
  Tags : Option (List String)
  IsPublic : Option Bool
  deriving DecidableEq

/-- request.AddFoodToTemplateRequest. -/
structure AddFoodToTemplateRequest where
  FoodItems : List MealTemplateFoodItemRequest
  deriving DecidableEq

/-- Errors of the MealService operations modelled here. -/
inductive ServiceError where
  | foodNotFound (id : String)
  | calcFailed (id : String) (e : CalcError)
  | templateNotFound (id : String)
  | accessDenied
  deriving DecidableEq

/-- The food-name snapshot taken in processFoodItems: the English name when
present and non-empty, otherwise some entry of the name map (the Go code
takes an arbitrary one from map iteration; the embedding takes the
first). -/
def englishName (name : MultiLanguage) : String :=
  let n := mlGet name "en"
  if n = "" then
    match List.head? name with
    | some e => e.2
    | none => ""
  else n

/-- The loop body of MealService.processFoodItems: look the food up, run
the calculator, and build the domain line item.  A repository miss and a
calculator error are the two failure paths of the Go loop (hex decoding of
the id is plumbing and is elided). -/
def processItems (lookupFood : String → Option FoodItem) :
    List MealTemplateFoodItemRequest →
    Except ServiceError (List MealTemplateFoodItem)
  | [] => Except.ok []
  | req :: rest =>
      match lookupFood req.FoodItemID with
      | none => Except.error (ServiceError.foodNotFound req.FoodItemID)
      | some food =>
          let out := CalculateNutrientsForServing food req.ServingUnit req.Amount
          match out.err with
          | some e => Except.error (ServiceError.calcFailed req.FoodItemID e)
          | none =>
              match processItems lookupFood rest with
              | Except.error e => Except.error e
              | Except.ok items =>
                  Except.ok
                    ({ FoodItemID := req.FoodItemID
                       FoodName := englishName food.Name
                       ServingUnit := req.ServingUnit
                       Amount := req.Amount
                       Calories := out.calories
                       Macros := out.macros
                       Micros := out.micros } :: items)

/-- MealService.processFoodItems: the items in request order, the running
calorie total of the loop (= the sum over the built list), and the
SumMacros / SumMicros folds over the collected per-item vectors. -/
def processFoodItems (lookupFood : String → Option FoodItem)
    (foodItemReqs : List MealTemplateFoodItemRequest) :
    Except ServiceError
      (List MealTemplateFoodItem × ℚ × MacroNutrients × MicroNutrients) :=
  match processItems lookupFood foodItemReqs with
  | Except.error e => Except.error e
  | Except.ok foodItems =>
      Except.ok (foodItems,
        (foodItems.map (fun it => it.Calories)).sum,
        SumMacros (foodItems.map (fun it => it.Macros)),
        SumMicros (foodItems.map (fun it => it.Micros)))

/-- MealService.CreateTemplate: process the requested items and build the
template with the computed totals (`newID` is the generated ObjectID and
`now` is time.Now()). -/
def CreateTemplate (lookupFood : String → Option FoodItem)
    (userID newID : String) (now : ℚ)
    (req : CreateMealTemplateRequest) : Except ServiceError MealTemplate :=
  match processFoodItems lookupFood req.FoodItems with
  | Except.error e => Except.error e
  | Except.ok (foodItems, totalCalories, totalMacros, totalMicros) =>
      Except.ok
        { ID := newID
          UserID := userID
          Name := req.Name
          Description := req.Description
          MealType := req.MealType
          FoodItems := foodItems
          TotalCalories := totalCalories
          TotalMacros := totalMacros
          TotalMicros := totalMicros
          Tags := req.Tags
          IsPublic := req.IsPublic
          CreatedAt := now
          UpdatedAt := now }

/-- MealService.AddFoodToTemplate: fetch the template, check ownership,
process the new items, append them, and fold their totals into the stored
totals with SumMacros / SumMicros (incremental aggregation). -/
def AddFoodToTemplate (lookupTemplate : String → Option MealTemplate)
    (lookupFood : String → Option FoodItem)
    (userID templateID : String) (now : ℚ)
    (req : AddFoodToTemplateRequest) : Except ServiceError MealTemplate :=
  match lookupTemplate templateID with
  | none => Except.error (ServiceError.templateNotFound templateID)
  | some template =>
      if template.UserID ≠ userID then Except.error ServiceError.accessDenied
      else
        match processFoodItems lookupFood req.FoodItems with
        | Except.error e => Except.error e
        | Except.ok (newFoodItems, newCalories, newMacros, newMicros) =>
            Except.ok
              { template with
                FoodItems := template.FoodItems ++ newFoodItems
                TotalCalories := template.TotalCalories + newCalories
                TotalMacros := SumMacros [template.TotalMacros, newMacros]
                TotalMicros := SumMicros [template.TotalMicros, newMicros]
                UpdatedAt := now }

/-- MealService.UpdateTemplate: fetch the template, check ownership, copy
in each supplied field (empty string or nil means keep the stored value),
and only when a non-nil non-empty item list is supplied, reprocess the
items and replace both the list and the three totals; UpdatedAt is always
refreshed. -/
def UpdateTemplate (lookupTemplate : String → Option MealTemplate)
    (lookupFood : String → Option FoodItem)
    (userID templateID : String) (now : ℚ)
    (req : UpdateMealTemplateRequest) : Except ServiceError MealTemplate :=
  match lookupTemplate templateID with
  | none => Except.error (ServiceError.templateNotFound templateID)
  | some template =>
      if template.UserID ≠ userID then Except.error ServiceError.accessDenied
      else
        let t :=
          { template with
            Name := if req.Name ≠ "" then req.Name else template.Name
            Description :=
              if req.Description ≠ "" then req.Description
              else template.Description
            MealType :=
              if req.MealType ≠ "" then req.MealType else template.MealType
            Tags := match req.Tags with
              | some tags => tags
              | none => template.Tags
            IsPublic := match req.IsPublic with
              | some b => b
              | none => template.IsPublic }
        match req.FoodItems with
        | some items =>
            if items.length > 0 then
              match processFoodItems lookupFood items with
              | Except.error e => Except.error e
              | Except.ok (foodItems, totalCalories, totalMacros, totalMicros) =>
                  Except.ok
                    { t with
                      FoodItems := foodItems
                      TotalCalories := totalCalories
                      TotalMacros := totalMacros
                      TotalMicros := totalMicros
                      UpdatedAt := now }
            else Except.ok { t with UpdatedAt := now }
        | none => Except.ok { t with UpdatedAt := now }

/-- The aggregate invariant of §3/§4.3 of the design: the stored
totals equal the componentwise sums over its current line items. -/
def templateInvariant (t : MealTemplate) : Prop :=
  t.TotalCalories = (t.FoodItems.map (fun it => it.Calories)).sum
    ∧ t.TotalMacros = SumMacros (t.FoodItems.map (fun it => it.Macros))
    ∧ t.TotalMicros = SumMicros (t.FoodItems.map (fun it => it.Micros))

instance (t : MealTemplate) : Decidable (templateInvariant t) := by
  unfold templateInvariant
  infer_instance

/-! Derived combinators and concrete instances used by the theorems
below. -/

/-- Componentwise scaling of a macro vector, used to state linearity. -/
def macScale (k : ℚ) (m : MacroNutrients) : MacroNutrients :=
  ⟨k * m.Protein, k * m.Carbohydrates, k * m.Fat, k * m.Fiber, k * m.Sugar⟩

/-- Componentwise scaling of a micro vector, used to state linearity. -/
def micScale (k : ℚ) (m : MicroNutrients) : MicroNutrients :=
  ⟨k * m.VitaminA, k * m.VitaminC, k * m.Calcium, k * m.Iron,
   k * m.Sodium, k * m.Potassium⟩

/-- A concrete food used to instantiate the calculator theorems. -/
def cFood : FoodItem :=
  { Name := [("en", "Oats")]
    Category := "grain"
    Macros := ⟨10, 20, 5, 3, 1⟩
    Micros := ⟨2, 4, 6, 8, 10, 12⟩
    ServingSizes := [⟨"gram", 100, "", 100⟩, ⟨"cup", 1, "one cup", 40⟩]
    Calories := 100 }

/-- A create request with two identical (food id, serving unit) entries,
each entry individually valid. -/
def cexReq : CreateMealTemplateRequest :=
  { Name := "Lunch"
    Description := ""
    MealType := "lunch"
    FoodItems := [⟨"f1", "gram", 1⟩, ⟨"f1", "gram", 1⟩]
    Tags := []
    IsPublic := false }

/-- A one-food repository for the service witnesses. -/
def cLookupFood : String → Option FoodItem :=
  fun id => if id = "f1" then some cFood else none

/-- A concrete create request for the service witnesses. -/
def cCreateReq : CreateMealTemplateRequest :=
  { Name := "Breakfast bowl"
    Description := ""
    MealType := "breakfast"
    FoodItems := [⟨"f1", "gram", 100⟩, ⟨"f1", "cup", 2⟩]
    Tags := []
    IsPublic := false }

/-- A stored template with no items and zero totals. -/
def cTemplate0 : MealTemplate :=
  { ID := "m0"
    UserID := "u1"
    Name := "Base"
    Description := ""
    MealType := "lunch"
    FoodItems := []
    TotalCalories := 0
    TotalMacros := zeroMacros
    TotalMicros := zeroMicros
    Tags := []
    IsPublic := false
    CreatedAt := 0
    UpdatedAt := 0 }

/-- A one-template repository for the service witnesses. -/
def cLookupTemplate : String → Option MealTemplate :=
  fun id => if id = "m0" then some cTemplate0 else none

/-- An update request that supplies no field. -/
def cEmptyUpdateReq : UpdateMealTemplateRequest :=
  { Name := ""
    Description := ""
    MealType := ""
    FoodItems := none
    Tags := none
    IsPublic := none }

/-- The value UpdateTemplate produces for the empty update request. -/
def cUpdated : MealTemplate := { cTemplate0 with UpdatedAt := 7 }

/-! Helper lemmas about the aggregation folds. -/

/-- The macro fold computes, in each component, the initial value plus the
sum of that component over the list. -/
theorem foldl_macStep (l : List MacroNutrients) (acc : MacroNutrients) :
    List.foldl macStep acc l =
      ⟨acc.Protein + (l.map (fun m => m.Protein)).sum,
       acc.Carbohydrates + (l.map (fun m => m.Carbohydrates)).sum,
       acc.Fat + (l.map (fun m => m.Fat)).sum,
       acc.Fiber + (l.map (fun m => m.Fiber)).sum,
       acc.Sugar + (l.map (fun m => m.Sugar)).sum⟩ := by
  induction l generalizing acc with
  | nil => simp
  | cons hd tl ih =>
      simp [List.foldl_cons, ih, macStep, add_assoc]

/-- SumMacros sums each field independently. -/
theorem SumMacros_eq (l : List MacroNutrients) :
    SumMacros l =
      ⟨(l.map (fun m => m.Protein)).sum,
       (l.map (fun m => m.Carbohydrates)).sum,
       (l.map (fun m => m.Fat)).sum,
       (l.map (fun m => m.Fiber)).sum,
       (l.map (fun m => m.Sugar)).sum⟩ := by
  unfold SumMacros
  rw [foldl_macStep]
  simp [zeroMacros]

/-- The micro fold computes, in each component, the initial value plus the
sum of that component over the list. -/
theorem foldl_micStep (l : List MicroNutrients) (acc : MicroNutrients) :
    List.foldl micStep acc l =
      ⟨acc.VitaminA + (l.map (fun m => m.VitaminA)).sum,
       acc.VitaminC + (l.map (fun m => m.VitaminC)).sum,
       acc.Calcium + (l.map (fun m => m.Calcium)).sum,
       acc.Iron + (l.map (fun m => m.Iron)).sum,
       acc.Sodium + (l.map (fun m => m.Sodium)).sum,
       acc.Potassium + (l.map (fun m => m.Potassium)).sum⟩ := by
  induction l generalizing acc with
  | nil => simp
  | cons hd tl ih =>
      simp [List.foldl_cons, ih, micStep, add_assoc]

/-- SumMicros sums each field independently. -/
theorem SumMicros_eq (l : List MicroNutrients) :
    SumMicros l =
      ⟨(l.map (fun m => m.VitaminA)).sum,
       (l.map (fun m => m.VitaminC)).sum,
       (l.map (fun m => m.Calcium)).sum,
       (l.map (fun m => m.Iron)).sum,
       (l.map (fun m => m.Sodium)).sum,
       (l.map (fun m => m.Potassium)).sum⟩ := by
  unfold SumMicros
  rw [foldl_micStep]
  simp [zeroMicros]

/-- Incremental aggregation agrees with recomputation: folding the two
partial macro sums equals summing the concatenation. -/
theorem SumMacros_pair_append (l₁ l₂ : List MacroNutrients) :
    SumMacros [SumMacros l₁, SumMacros l₂] = SumMacros (l₁ ++ l₂) := by
  simp [SumMacros_eq]

/-- Incremental aggregation agrees with recomputation: folding the two
partial micro sums equals summing the concatenation. -/
theorem SumMicros_pair_append (l₁ l₂ : List MicroNutrients) :
    SumMicros [SumMicros l₁, SumMicros l₂] = SumMicros (l₁ ++ l₂) := by
  simp [SumMicros_eq]

/-- C5: SumMacros and SumMicros sum each nutrient field independently
across all inputs; the empty input gives the all-zero vector, and both are
invariant under permutation of the input list. -/
theorem claim_C5_sum_aggregation :
    (SumMacros [] = zeroMacros ∧ SumMicros [] = zeroMicros)
    ∧ (∀ l : List MacroNutrients,
        SumMacros l =
          ⟨(l.map (fun m => m.Protein)).sum,
           (l.map (fun m => m.Carbohydrates)).sum,
           (l.map (fun m => m.Fat)).sum,
           (l.map (fun m => m.Fiber)).sum,
           (l.map (fun m => m.Sugar)).sum⟩)
    ∧ (∀ l : List MicroNutrients,
        SumMicros l =
          ⟨(l.map (fun m => m.VitaminA)).sum,
           (l.map (fun m => m.VitaminC)).sum,
           (l.map (fun m => m.Calcium)).sum,
           (l.map (fun m => m.Iron)).sum,
           (l.map (fun m => m.Sodium)).sum,
           (l.map (fun m => m.Potassium)).sum⟩)
    ∧ (∀ l₁ l₂ : List MacroNutrients, List.Perm l₁ l₂ →
        SumMacros l₁ = SumMacros l₂)
    ∧ (∀ l₁ l₂ : List MicroNutrients, List.Perm l₁ l₂ →
        SumMicros l₁ = SumMicros l₂) := by
  refine ⟨⟨rfl, rfl⟩, SumMacros_eq, SumMicros_eq, ?_, ?_⟩
  · intro l₁ l₂ hp
    rw [SumMacros_eq, SumMacros_eq]
    exact MacroNutrients.mk.injEq .. ▸
      ⟨(hp.map _).sum_eq, (hp.map _).sum_eq, (hp.map _).sum_eq,
       (hp.map _).sum_eq, (hp.map _).sum_eq⟩
  · intro l₁ l₂ hp
    rw [SumMicros_eq, SumMicros_eq]
    exact MicroNutrients.mk.injEq .. ▸
      ⟨(hp.map _).sum_eq, (hp.map _).sum_eq, (hp.map _).sum_eq,
       (hp.map _).sum_eq, (hp.map _).sum_eq, (hp.map _).sum_eq⟩

/-- Witness for C5 at concrete inputs: the reordering [A, B, C] versus
[C, A, B] of the specification text. -/
theorem claim_C5_witness :
    (List.Perm
      [(⟨1, 2, 3, 4, 5⟩ : MacroNutrients), ⟨10, 20, 30, 40, 50⟩, ⟨7, 8, 9, 10, 11⟩]
      [(⟨7, 8, 9, 10, 11⟩ : MacroNutrients), ⟨1, 2, 3, 4, 5⟩, ⟨10, 20, 30, 40, 50⟩])
    ∧ SumMacros
        [(⟨1, 2, 3, 4, 5⟩ : MacroNutrients), ⟨10, 20, 30, 40, 50⟩, ⟨7, 8, 9, 10, 11⟩]
      = SumMacros
        [(⟨7, 8, 9, 10, 11⟩ : MacroNutrients), ⟨1, 2, 3, 4, 5⟩, ⟨10, 20, 30, 40, 50⟩]
    ∧ SumMicros
        [(⟨1, 2, 3, 4, 5, 6⟩ : MicroNutrients), ⟨9, 8, 7, 6, 5, 4⟩]
      = SumMicros
        [(⟨9, 8, 7, 6, 5, 4⟩ : MicroNutrients), ⟨1, 2, 3, 4, 5, 6⟩] := by
  refine ⟨by decide, ?_, ?_⟩
  · exact claim_C5_sum_aggregation.2.2.2.1 _ _ (by decide)
  · exact claim_C5_sum_aggregation.2.2.2.2 _ _ (by decide)

/-- C1: the calorie/macro consistency stage accepts exactly when the
declared calories are within ±10 of protein*4 + carbohydrates*4 + fat*9 +
fiber*2; the concrete food of the specification with calories 63.8 passes,
and the concrete food with calories 160 against macros (10, 20, 5, 3) is
rejected with an error carrying the declared value 160, the expected value
171 and the difference −11. -/
theorem claim_C1_calories_consistency :
    (∀ req : CreateFoodRequest,
        validateCaloriesConsistency req = none ↔
          |req.Calories - (req.Macros.Protein * 4 + req.Macros.Carbohydrates * 4
            + req.Macros.Fat * 9 + req.Macros.Fiber * 2)| ≤ 10)
    ∧ validateCaloriesConsistency
        { Name := [("en", "Apple")], Description := [],
          Macros := ⟨0.3, 14, 0.2, 2.4, 0⟩, Micros := zeroMicros,
          ServingSizes := [], Calories := 63.8 } = none
    ∧ validateCaloriesConsistency
        { Name := [("en", "Shake")], Description := [],
          Macros := ⟨10, 20, 5, 3, 0⟩, Micros := zeroMicros,
          ServingSizes := [], Calories := 160 } =
        some (FoodError.caloriesMismatch 160 171 (-11) 10) := by
  refine ⟨?_, ?_, ?_⟩
  · intro req
    simp only [validateCaloriesConsistency, caloriesTolerance]
    split_ifs with h
    · simp only [abs_le]
      constructor
      · intro hc
        exact hc.elim
      · rintro ⟨hlo, hhi⟩
        rcases h with h | h
        · linarith
        · linarith
    · push_neg at h
      simp only [abs_le]
      constructor
      · intro _
        exact ⟨by linarith [h.1], h.2⟩
      · intro _
        trivial
  · simp only [validateCaloriesConsistency, caloriesTolerance]
    rw [if_neg (by norm_num)]
  · simp only [validateCaloriesConsistency, caloriesTolerance]
    rw [if_pos (by norm_num)]
    norm_num [FoodError.caloriesMismatch.injEq]

/-- C6: the meal-plan date-range check accepts exactly when the start is
not strictly before today, the end is strictly after the start, and the
whole-day span (end − start in hours, divided by 24 and truncated to an
integer as the Go code does) lies in the configured 1..90 window; a range
of exactly one day (start = today, end = today + 24h) is accepted and a
range of 91 days is rejected. -/
theorem claim_C6_date_range :
    (∀ today startDate endDate : ℚ,
        validateDateRange today startDate endDate = none ↔
          (¬ startDate < today ∧ startDate < endDate
            ∧ 1 ≤ ratTrunc ((endDate - startDate) / 24)
            ∧ ratTrunc ((endDate - startDate) / 24) ≤ 90))
    ∧ (∀ today : ℚ, validateDateRange today today (today + 24) = none)
    ∧ (∀ today : ℚ, validateDateRange today today (today + 91 * 24) =
        some (PlanError.rangeTooLong 90)) := by
  refine ⟨?_, ?_, ?_⟩
  · intro today s e
    simp only [validateDateRange, minDateRangeDays, maxDateRangeDays]
    by_cases h1 : s < today
    · rw [if_pos h1]
      constructor
      · intro hc
        exact Option.noConfusion hc
      · rintro ⟨hns, -⟩
        exact absurd h1 hns
    · rw [if_neg h1]
      by_cases h2 : s < e
      · rw [if_neg (not_not_intro h2)]
        by_cases h3 : ratTrunc ((e - s) / 24) < 1
        · rw [if_pos h3]
          constructor
          · intro hc
            exact Option.noConfusion hc
          · rintro ⟨-, -, hge, -⟩
            exact absurd hge (by omega)
        · rw [if_neg h3]
          by_cases h4 : (90 : ℤ) < ratTrunc ((e - s) / 24)
          · rw [if_pos h4]
            constructor
            · intro hc
              exact Option.noConfusion hc
            · rintro ⟨-, -, -, hle⟩
              exact absurd hle (by omega)
          · rw [if_neg h4]
            constructor
            · intro _
              exact ⟨h1, h2, by omega, by omega⟩
            · intro _
              rfl
      · rw [if_pos h2]
        constructor
        · intro hc
          exact Option.noConfusion hc
        · rintro ⟨-, hse, -⟩
          exact absurd hse h2
  · intro today
    simp only [validateDateRange, minDateRangeDays, maxDateRangeDays]
    rw [if_neg (lt_irrefl today), if_neg (not_not_intro (by linarith))]
    have hd : (today + 24 - today) / 24 = (1 : ℚ) := by ring
    rw [hd]
    norm_num [ratTrunc]
  · intro today
    simp only [validateDateRange, minDateRangeDays, maxDateRangeDays]
    rw [if_neg (lt_irrefl today), if_neg (not_not_intro (by linarith))]
    have hd : (today + 91 * 24 - today) / 24 = (91 : ℚ) := by ring
    rw [hd]
    norm_num [ratTrunc]

/-- List.find? returns the entry at index i when it satisfies the predicate
and all earlier entries do not (the "first match" of the Go loop). -/
theorem find?_first_match {α : Type} (p : α → Bool) (l : List α) :
    ∀ (i : Nat) (h : i < l.length),
      p (l.get ⟨i, h⟩) = true →
      (∀ j (hj : j < i), p (l.get ⟨j, Nat.lt_trans hj h⟩) = false) →
      List.find? p l = some (l.get ⟨i, h⟩) := by
  induction l with
  | nil =>
      intro i h
      exact absurd h (Nat.not_lt_zero i)
  | cons a tl ih =>
      intro i h hp hmin
      cases i with
      | zero =>
          exact List.find?_cons_of_pos _ hp
      | succ i =>
          have ha : p a = false := hmin 0 (Nat.succ_pos i)
          rw [List.find?_cons_of_neg _ (by simp [ha])]
          exact ih i (Nat.lt_of_succ_lt_succ h) hp
            (fun j hj => hmin (j + 1) (Nat.succ_lt_succ hj))

/-- C2: when the serving-size list has an entry with the requested unit,
the calculator uses the first such entry, computes totalGrams =
(amount / entry.Amount) * entry.GramEquivalent and multiplier =
totalGrams / 100, and returns every calorie, macro and micro field of the
per-100g baseline multiplied by that multiplier, with no error. -/
theorem claim_C2_serving_computation :
    ∀ (food : FoodItem) (servingUnit : String) (amount : ℚ)
      (i : Nat) (h : i < food.ServingSizes.length),
      (food.ServingSizes.get ⟨i, h⟩).Unit = servingUnit →
      (∀ j (hj : j < i),
        (food.ServingSizes.get ⟨j, Nat.lt_trans hj h⟩).Unit ≠ servingUnit) →
      CalculateNutrientsForServing food servingUnit amount =
        { calories := food.Calories *
            ((amount / (food.ServingSizes.get ⟨i, h⟩).Amount)
              * (food.ServingSizes.get ⟨i, h⟩).GramEquivalent / 100)
          macros :=
            ⟨food.Macros.Protein *
              ((amount / (food.ServingSizes.get ⟨i, h⟩).Amount)
                * (food.ServingSizes.get ⟨i, h⟩).GramEquivalent / 100),
             food.Macros.Carbohydrates *
              ((amount / (food.ServingSizes.get ⟨i, h⟩).Amount)
                * (food.ServingSizes.get ⟨i, h⟩).GramEquivalent / 100),
             food.Macros.Fat *
              ((amount / (food.ServingSizes.get ⟨i, h⟩).Amount)
                * (food.ServingSizes.get ⟨i, h⟩).GramEquivalent / 100),
             food.Macros.Fiber *
              ((amount / (food.ServingSizes.get ⟨i, h⟩).Amount)
                * (food.ServingSizes.get ⟨i, h⟩).GramEquivalent / 100),
             food.Macros.Sugar *
              ((amount / (food.ServingSizes.get ⟨i, h⟩).Amount)
                * (food.ServingSizes.get ⟨i, h⟩).GramEquivalent / 100)⟩
          micros :=
            ⟨food.Micros.VitaminA *
              ((amount / (food.ServingSizes.get ⟨i, h⟩).Amount)
                * (food.ServingSizes.get ⟨i, h⟩).GramEquivalent / 100),
             food.Micros.VitaminC *
              ((amount / (food.ServingSizes.get ⟨i, h⟩).Amount)
                * (food.ServingSizes.get ⟨i, h⟩).GramEquivalent / 100),
             food.Micros.Calcium *
              ((amount / (food.ServingSizes.get ⟨i, h⟩).Amount)
                * (food.ServingSizes.get ⟨i, h⟩).GramEquivalent / 100),
             food.Micros.Iron *
              ((amount / (food.ServingSizes.get ⟨i, h⟩).Amount)
                * (food.ServingSizes.get ⟨i, h⟩).GramEquivalent / 100),
             food.Micros.Sodium *
              ((amount / (food.ServingSizes.get ⟨i, h⟩).Amount)
                * (food.ServingSizes.get ⟨i, h⟩).GramEquivalent / 100),
             food.Micros.Potassium *
              ((amount / (food.ServingSizes.get ⟨i, h⟩).Amount)
                * (food.ServingSizes.get ⟨i, h⟩).GramEquivalent / 100)⟩
          err := none } := by
  intro food su amount i h hu hmin
  have hfind : List.find? (fun s => s.Unit == su) food.ServingSizes
      = some (food.ServingSizes.get ⟨i, h⟩) :=
    find?_first_match _ _ i h (by simpa using hu)
      (fun j hj => by simpa using hmin j hj)
  unfold CalculateNutrientsForServing
  rw [hfind]

/-- The second serving-size entry of the concrete food is in range. -/
theorem cFood_len : 1 < cFood.ServingSizes.length := by decide

/-- Witness for C2: two cups of the concrete food, resolved through the
second serving-size entry (the first entry has a different unit). -/
theorem claim_C2_witness :
    CalculateNutrientsForServing cFood "cup" 2 =
      { calories := 80
        macros := ⟨8, 16, 4, 12/5, 4/5⟩
        micros := ⟨8/5, 16/5, 24/5, 32/5, 8, 48/5⟩
        err := none } := by
  have h := claim_C2_serving_computation cFood "cup" 2 1 cFood_len (by decide)
    (by
      intro j hj
      have hj0 : j = 0 := by omega
      subst hj0
      show (cFood.ServingSizes.get ⟨0, by decide⟩).Unit ≠ "cup"
      decide)
  rw [h]
  with_unfolding_all decide

/-- C4: the calculator returns zero calories, all-zero macro and micro
vectors and the not-found error naming the requested unit and the food
name, exactly when no serving-size entry has the requested unit. -/
theorem claim_C4_unit_not_found :
    ∀ (food : FoodItem) (servingUnit : String) (amount : ℚ),
      (∀ ss ∈ food.ServingSizes, ss.Unit ≠ servingUnit) ↔
        CalculateNutrientsForServing food servingUnit amount =
          ⟨0, zeroMacros, zeroMicros,
            some (CalcError.servingUnitNotFound servingUnit food.Name)⟩ := by
  intro food su amount
  constructor
  · intro hall
    have hnone : List.find? (fun s => s.Unit == su) food.ServingSizes = none := by
      rw [List.find?_eq_none]
      intro x hx
      simpa using hall x hx
    unfold CalculateNutrientsForServing
    rw [hnone]
  · intro heq ss hss hunit
    have hsome : (List.find? (fun s => s.Unit == su) food.ServingSizes).isSome := by
      rw [List.find?_isSome]
      exact ⟨ss, hss, by simpa using hunit⟩
    obtain ⟨ss0, hs0⟩ := Option.isSome_iff_exists.mp hsome
    unfold CalculateNutrientsForServing at heq
    rw [hs0] at heq
    simp at heq

/-- C8: for a serving unit present in the serving-size list of the food, the
calculator is linear in the amount: the output for 2*X is exactly double
the output for X in the calorie field and in every macro and micro
field. -/
theorem claim_C8_linear_scaling :
    ∀ (food : FoodItem) (servingUnit : String) (amount : ℚ),
      (∃ ss ∈ food.ServingSizes, ss.Unit = servingUnit) →
      CalculateNutrientsForServing food servingUnit (2 * amount) =
        { calories :=
            2 * (CalculateNutrientsForServing food servingUnit amount).calories
          macros :=
            macScale 2 ((CalculateNutrientsForServing food servingUnit amount).macros)
          micros :=
            micScale 2 ((CalculateNutrientsForServing food servingUnit amount).micros)
          err := none } := by
  intro food su amount hex
  have hsome : (List.find? (fun s => s.Unit == su) food.ServingSizes).isSome := by
    rw [List.find?_isSome]
    obtain ⟨ss, hss, hu⟩ := hex
    exact ⟨ss, hss, by simpa using hu⟩
  obtain ⟨ss0, hs0⟩ := Option.isSome_iff_exists.mp hsome
  unfold CalculateNutrientsForServing macScale micScale
  rw [hs0]
  simp only [CalcOut.mk.injEq, MacroNutrients.mk.injEq, MicroNutrients.mk.injEq]
  refine ⟨by ring, ⟨by ring, by ring, by ring, by ring, by ring⟩,
    ⟨by ring, by ring, by ring, by ring, by ring, by ring⟩, trivial⟩

/-- Witness for C8: doubling two cups of the concrete food doubles the
computed output. -/
theorem claim_C8_witness :
    (∃ ss ∈ cFood.ServingSizes, ss.Unit = "cup")
    ∧ CalculateNutrientsForServing cFood "cup" (2 * 2) =
        { calories := 2 * (CalculateNutrientsForServing cFood "cup" 2).calories
          macros := macScale 2 ((CalculateNutrientsForServing cFood "cup" 2).macros)
          micros := micScale 2 ((CalculateNutrientsForServing cFood "cup" 2).micros)
          err := none } := by
  have hmem : (⟨"cup", 1, "one cup", 40⟩ : ServingSize) ∈ cFood.ServingSizes := by
    with_unfolding_all decide
  have hex : ∃ ss ∈ cFood.ServingSizes, ss.Unit = "cup" :=
    ⟨⟨"cup", 1, "one cup", 40⟩, hmem, rfl⟩
  exact ⟨hex, claim_C8_linear_scaling cFood "cup" 2 hex⟩

/-- A blank-after-trim value anywhere in the map makes the name loop
report an error. -/
theorem validateNameLoop_isSome :
    ∀ (l : List (String × String)) (lang value : String),
      (lang, value) ∈ l → value.trim = "" →
      (validateNameLoop l).isSome = true := by
  intro l
  induction l with
  | nil =>
      intro lang value hmem _
      cases hmem
  | cons hd tl ih =>
      intro lang value hmem hblank
      obtain ⟨hl, hv⟩ := hd
      simp only [validateNameLoop]
      rcases List.mem_cons.mp hmem with heq | htl
      · have hveq : hv.trim = "" := by
          cases heq
          exact hblank
        rw [if_pos hveq]
        rfl
      · split_ifs
        · rfl
        · rfl
        · exact ih lang value htl hblank

/-- A description map all of whose trimmed values are within the length
bound (blank ones included) passes the description loop. -/
theorem validateDescriptionLoop_none :
    ∀ l : List (String × String),
      (∀ e ∈ l, (e.2.trim).utf8ByteSize ≤ foodMaxDescriptionLength) →
      validateDescriptionLoop l = none := by
  intro l
  induction l with
  | nil =>
      intro _
      rfl
  | cons hd tl ih =>
      intro hall
      obtain ⟨hl, hv⟩ := hd
      simp only [validateDescriptionLoop]
      rw [if_neg]
      · exact ih (fun e he => hall e (List.mem_cons_of_mem _ he))
      · rintro ⟨-, hlen⟩
        exact absurd hlen
          (Nat.not_lt.mpr (hall (hl, hv) (List.mem_cons_self _ _)))

/-- C9: the name check of the food validator rejects a name map containing a
blank-after-trim value in any language (even alongside a valid English
entry), whereas the description check tolerates blank-after-trim values
(every description map whose trimmed entries are within the length bound,
blank ones included, is accepted). -/
theorem claim_C9_blank_name_rejected :
    (∀ (name : MultiLanguage) (lang value : String),
        (lang, value) ∈ name → value.trim = "" →
        (validateName name).isSome = true)
    ∧ (∀ desc : MultiLanguage,
        (∀ e ∈ desc, (e.2.trim).utf8ByteSize ≤ foodMaxDescriptionLength) →
        validateDescription desc = none) := by
  constructor
  · intro name lang value hmem hblank
    unfold validateName
    split_ifs
    · rfl
    · rfl
    · exact validateNameLoop_isSome name lang value hmem hblank
  · intro desc hall
    unfold validateDescription
    split_ifs
    · rfl
    · exact validateDescriptionLoop_none desc hall

/-- Witness for C9: a name map with a valid English entry and a blank
Vietnamese entry is rejected, while a description map with a blank entry is
accepted. -/
theorem claim_C9_witness :
    (validateName [("en", "Apple"), ("vi", "   ")]).isSome = true
    ∧ validateDescription [("en", "")] = none := by
  constructor
  · exact claim_C9_blank_name_rejected.1 [("en", "Apple"), ("vi", "   ")]
      "vi" "   " (by with_unfolding_all decide) (by with_unfolding_all decide)
  · exact claim_C9_blank_name_rejected.2 [("en", "")]
      (by with_unfolding_all decide)

/-- If the key of some later entry is already in the seen set, the
part_017 food-item loop reports an error. -/
theorem mealFoodItemsLoop_isSome_of_seen :
    ∀ (items : List MealTemplateFoodItemRequest) (i0 : Nat) (seen : List String)
      (j : Nat) (hj : j < items.length),
      ((items.get ⟨j, hj⟩).FoodItemID ++ ":" ++ (items.get ⟨j, hj⟩).ServingUnit)
        ∈ seen →
      (mealFoodItemsLoop items i0 seen).isSome = true := by
  intro items
  induction items with
  | nil =>
      intro i0 seen j hj
      exact absurd hj (Nat.not_lt_zero j)
  | cons item rest ih =>
      intro i0 seen j hj hmem
      simp only [mealFoodItemsLoop]
      split_ifs with h1 h2 h3 h4
      · rfl
      · rfl
      · rfl
      · rfl
      · cases j with
        | zero => exact absurd hmem h4
        | succ j =>
            exact ih (i0 + 1) _ j (Nat.lt_of_succ_lt_succ hj)
              (List.mem_cons_of_mem _ hmem)

/-- Two entries with the same (food id, serving unit) pair make the
part_017 food-item loop report an error, whatever the index base and seen
set. -/
theorem mealFoodItemsLoop_isSome_of_dup :
    ∀ (items : List MealTemplateFoodItemRequest) (i0 : Nat) (seen : List String)
      (i j : Nat) (hij : i < j) (hj : j < items.length),
      (items.get ⟨i, Nat.lt_trans hij hj⟩).FoodItemID
        = (items.get ⟨j, hj⟩).FoodItemID →
      (items.get ⟨i, Nat.lt_trans hij hj⟩).ServingUnit
        = (items.get ⟨j, hj⟩).ServingUnit →
      (mealFoodItemsLoop items i0 seen).isSome = true := by
  intro items
  induction items with
  | nil =>
      intro i0 seen i j hij hj
      exact absurd hj (Nat.not_lt_zero j)
  | cons item rest ih =>
      intro i0 seen i j hij hj hid hunit
      simp only [mealFoodItemsLoop]
      split_ifs with h1 h2 h3 h4
      · rfl
      · rfl
      · rfl
      · rfl
      · cases i with
        | zero =>
            cases j with
            | zero => exact absurd hij (lt_irrefl 0)
            | succ j =>
                apply mealFoodItemsLoop_isSome_of_seen rest (i0 + 1) _ j
                  (Nat.lt_of_succ_lt_succ hj)
                have hid2 : item.FoodItemID
                    = (rest.get ⟨j, Nat.lt_of_succ_lt_succ hj⟩).FoodItemID := hid
                have hunit2 : item.ServingUnit
                    = (rest.get ⟨j, Nat.lt_of_succ_lt_succ hj⟩).ServingUnit := hunit
                rw [← hid2, ← hunit2]
                exact List.mem_cons_self _ _
        | succ i =>
            cases j with
            | zero => exact absurd hij (by omega)
            | succ j =>
                exact ih (i0 + 1) _ i j (Nat.lt_of_succ_lt_succ hij)
                  (Nat.lt_of_succ_lt_succ hj) hid hunit

/-- C7 (amended): for the meal validator wired into the HTTP handlers
(unnamed/part_017), a create request whose food-item list has two entries
with the same (food reference, serving unit) pair is always rejected.  The
parallel validator in internal/pkg/validator/meal_validator.go performs no
duplicate check (see the counterexample). -/
theorem claim_C7_duplicate_rejected :
    ∀ (req : CreateMealTemplateRequest) (i j : Nat) (hij : i < j)
      (hj : j < req.FoodItems.length),
      (req.FoodItems.get ⟨i, Nat.lt_trans hij hj⟩).FoodItemID
        = (req.FoodItems.get ⟨j, hj⟩).FoodItemID →
      (req.FoodItems.get ⟨i, Nat.lt_trans hij hj⟩).ServingUnit
        = (req.FoodItems.get ⟨j, hj⟩).ServingUnit →
      (MealValidateCreateRequest req).isSome = true := by
  intro req i j hij hj hid hunit
  have hfi : (mealValidateFoodItems req.FoodItems).isSome = true := by
    unfold mealValidateFoodItems
    split_ifs with h0
    · rfl
    · exact mealFoodItemsLoop_isSome_of_dup req.FoodItems 0 [] i j hij hj hid hunit
  unfold MealValidateCreateRequest
  cases h1 : mealValidateName req.Name with
  | some e => simp
  | none =>
      cases h2 : (if req.Description ≠ "" then
          mealValidateDescription req.Description else none) with
      | some e => simp
      | none =>
          cases h3 : mealValidateMealType req.MealType with
          | some e => simp
          | none =>
              obtain ⟨e, he⟩ := Option.isSome_iff_exists.mp hfi
              rw [he]
              simp

/-- Counterexample for C7 as stated: the internal/pkg/validator meal
validator accepts a request whose food-item list contains two entries with
the same (food reference, serving unit) pair. -/
theorem claim_C7_counterexample :
    (cexReq.FoodItems.get ⟨0, by decide⟩).FoodItemID
      = (cexReq.FoodItems.get ⟨1, by decide⟩).FoodItemID
    ∧ (cexReq.FoodItems.get ⟨0, by decide⟩).ServingUnit
      = (cexReq.FoodItems.get ⟨1, by decide⟩).ServingUnit
    ∧ PkgValidateCreateTemplateRequest cexReq = none := by
  refine ⟨by decide, by decide, ?_⟩
  with_unfolding_all decide

/-- Index bound for the duplicate request. -/
theorem cexReq_len : 1 < cexReq.FoodItems.length := by decide

/-- A strict index ordering fact for the duplicate request. -/
theorem cexReq_lt : (0 : Nat) < 1 := by decide

/-- Witness for the amended C7: the handler-wired validator rejects the
concrete duplicated request. -/
theorem claim_C7_witness :
    (MealValidateCreateRequest cexReq).isSome = true :=
  claim_C7_duplicate_rejected cexReq 0 1 cexReq_lt cexReq_len
    (by decide) (by decide)

/-- The totals returned by processFoodItems are exactly the folds over the
returned line-item list. -/
theorem processFoodItems_totals (lookupFood : String → Option FoodItem)
    (reqs : List MealTemplateFoodItemRequest)
    {items : List MealTemplateFoodItem} {c : ℚ}
    {m : MacroNutrients} {mi : MicroNutrients}
    (h : processFoodItems lookupFood reqs = Except.ok (items, c, m, mi)) :
    c = (items.map (fun it => it.Calories)).sum
    ∧ m = SumMacros (items.map (fun it => it.Macros))
    ∧ mi = SumMicros (items.map (fun it => it.Micros)) := by
  unfold processFoodItems at h
  cases hpi : processItems lookupFood reqs with
  | error e =>
      rw [hpi] at h
      exact Except.noConfusion h
  | ok its =>
      simp only [hpi, Except.ok.injEq, Prod.mk.injEq] at h
      obtain ⟨h1, h2, h3, h4⟩ := h
      subst h1
      exact ⟨h2.symm, h3.symm, h4.symm⟩

/-- C3: each of CreateTemplate, AddFoodToTemplate and UpdateTemplate
re-establishes the totals invariant — on success the stored TotalCalories,
TotalMacros and TotalMicros equal the field-wise sums over the stored
line-item list (for the two mutating operations this assumes the fetched
template already satisfied the invariant, which AddFoodToTemplate extends
incrementally and UpdateTemplate either re-computes or leaves
untouched). -/
theorem claim_C3_totals_invariant :
    (∀ (lookupFood : String → Option FoodItem) (userID newID : String)
        (now : ℚ) (req : CreateMealTemplateRequest) (t : MealTemplate),
        CreateTemplate lookupFood userID newID now req = Except.ok t →
        templateInvariant t)
    ∧ (∀ (lookupTemplate : String → Option MealTemplate)
        (lookupFood : String → Option FoodItem)
        (userID templateID : String) (now : ℚ)
        (req : AddFoodToTemplateRequest) (t : MealTemplate),
        (∀ t0, lookupTemplate templateID = some t0 → templateInvariant t0) →
        AddFoodToTemplate lookupTemplate lookupFood userID templateID now req
          = Except.ok t →
        templateInvariant t)
    ∧ (∀ (lookupTemplate : String → Option MealTemplate)
        (lookupFood : String → Option FoodItem)
        (userID templateID : String) (now : ℚ)
        (req : UpdateMealTemplateRequest) (t : MealTemplate),
        (∀ t0, lookupTemplate templateID = some t0 → templateInvariant t0) →
        UpdateTemplate lookupTemplate lookupFood userID templateID now req
          = Except.ok t →
        templateInvariant t) := by
  refine ⟨?_, ?_, ?_⟩
  · intro lf uid nid now req t h
    unfold CreateTemplate at h
    cases hp : processFoodItems lf req.FoodItems with
    | error e =>
        rw [hp] at h
        exact Except.noConfusion h
    | ok tuple =>
        obtain ⟨items, c, m, mi⟩ := tuple
        have htot := processFoodItems_totals lf req.FoodItems hp
        simp only [hp, Except.ok.injEq] at h
        subst h
        exact htot
  · intro lt lf uid tid now req t hinv h
    unfold AddFoodToTemplate at h
    cases hT : lt tid with
    | none =>
        rw [hT] at h
        exact Except.noConfusion h
    | some t0 =>
        simp only [hT] at h
        obtain ⟨ic, im, imi⟩ := hinv t0 hT
        by_cases hown : t0.UserID ≠ uid
        · rw [if_pos hown] at h
          exact Except.noConfusion h
        · rw [if_neg hown] at h
          cases hp : processFoodItems lf req.FoodItems with
          | error e =>
              rw [hp] at h
              exact Except.noConfusion h
          | ok tuple =>
              obtain ⟨newItems, c, m, mi⟩ := tuple
              obtain ⟨hc, hm, hmi⟩ := processFoodItems_totals lf req.FoodItems hp
              simp only [hp, Except.ok.injEq] at h
              subst h
              refine ⟨?_, ?_, ?_⟩
              · show t0.TotalCalories + c
                  = ((t0.FoodItems ++ newItems).map (fun it => it.Calories)).sum
                rw [List.map_append, List.sum_append, ic, hc]
              · show SumMacros [t0.TotalMacros, m]
                  = SumMacros ((t0.FoodItems ++ newItems).map (fun it => it.Macros))
                rw [List.map_append, im, hm, SumMacros_pair_append]
              · show SumMicros [t0.TotalMicros, mi]
                  = SumMicros ((t0.FoodItems ++ newItems).map (fun it => it.Micros))
                rw [List.map_append, imi, hmi, SumMicros_pair_append]
  · intro lt lf uid tid now req t hinv h
    unfold UpdateTemplate at h
    cases hT : lt tid with
    | none =>
        rw [hT] at h
        exact Except.noConfusion h
    | some t0 =>
        simp only [hT] at h
        obtain ⟨ic, im, imi⟩ := hinv t0 hT
        by_cases hown : t0.UserID ≠ uid
        · rw [if_pos hown] at h
          exact Except.noConfusion h
        · rw [if_neg hown] at h
          cases hfi : req.FoodItems with
          | none =>
              simp only [hfi, Except.ok.injEq] at h
              subst h
              exact ⟨ic, im, imi⟩
          | some items =>
              simp only [hfi] at h
              by_cases hlen : items.length > 0
              · rw [if_pos hlen] at h
                cases hp : processFoodItems lf items with
                | error e =>
                    rw [hp] at h
                    exact Except.noConfusion h
                | ok tuple =>
                    obtain ⟨newItems, c, m, mi⟩ := tuple
                    have htot := processFoodItems_totals lf items hp
                    simp only [hp, Except.ok.injEq] at h
                    subst h
                    exact htot
              · rw [if_neg hlen] at h
                simp only [Except.ok.injEq] at h
                subst h
                exact ⟨ic, im, imi⟩

/-- C10: on a successful UpdateTemplate, a nil or empty item list leaves
the line items and all three totals unchanged, and each empty-string or
nil optional field leaves the corresponding stored field unchanged;
identity, owner and creation time are never modified and UpdatedAt is set
to the supplied clock value. -/
theorem claim_C10_update_frame :
    ∀ (lookupTemplate : String → Option MealTemplate)
      (lookupFood : String → Option FoodItem)
      (userID templateID : String) (now : ℚ)
      (req : UpdateMealTemplateRequest) (t0 t : MealTemplate),
      lookupTemplate templateID = some t0 →
      UpdateTemplate lookupTemplate lookupFood userID templateID now req
        = Except.ok t →
      ((req.FoodItems = none ∨ req.FoodItems = some []) →
          (t.FoodItems = t0.FoodItems
            ∧ t.TotalCalories = t0.TotalCalories
            ∧ t.TotalMacros = t0.TotalMacros
            ∧ t.TotalMicros = t0.TotalMicros))
      ∧ (req.Name = "" → t.Name = t0.Name)
      ∧ (req.Description = "" → t.Description = t0.Description)
      ∧ (req.MealType = "" → t.MealType = t0.MealType)
      ∧ (req.Tags = none → t.Tags = t0.Tags)
      ∧ (req.IsPublic = none → t.IsPublic = t0.IsPublic)
      ∧ t.ID = t0.ID ∧ t.UserID = t0.UserID ∧ t.CreatedAt = t0.CreatedAt
      ∧ t.UpdatedAt = now := by
  intro lt lf uid tid now req t0 t hT h
  unfold UpdateTemplate at h
  simp only [hT] at h
  by_cases hown : t0.UserID ≠ uid
  · rw [if_pos hown] at h
    exact Except.noConfusion h
  · rw [if_neg hown] at h
    cases hfi : req.FoodItems with
    | none =>
        simp only [hfi, Except.ok.injEq] at h
        subst h
        refine ⟨fun _ => ⟨rfl, rfl, rfl, rfl⟩, ?_, ?_, ?_, ?_, ?_, rfl, rfl, rfl, rfl⟩
        · intro hname
          show (if req.Name ≠ "" then req.Name else t0.Name) = t0.Name
          rw [if_neg (not_not_intro hname)]
        · intro hdesc
          show (if req.Description ≠ "" then req.Description else t0.Description)
            = t0.Description
          rw [if_neg (not_not_intro hdesc)]
        · intro hmt
          show (if req.MealType ≠ "" then req.MealType else t0.MealType)
            = t0.MealType
          rw [if_neg (not_not_intro hmt)]
        · intro htags
          show (match req.Tags with
            | some tags => tags
            | none => t0.Tags) = t0.Tags
          rw [htags]
        · intro hpub
          show (match req.IsPublic with
            | some b => b
            | none => t0.IsPublic) = t0.IsPublic
          rw [hpub]
    | some items =>
        simp only [hfi] at h
        by_cases hlen : items.length > 0
        · rw [if_pos hlen] at h
          cases hp : processFoodItems lf items with
          | error e =>
              rw [hp] at h
              exact Except.noConfusion h
          | ok tuple =>
              obtain ⟨newItems, c, m, mi⟩ := tuple
              simp only [hp, Except.ok.injEq] at h
              subst h
              refine ⟨?_, ?_, ?_, ?_, ?_, ?_, rfl, rfl, rfl, rfl⟩
              · rintro (hn | hs)
                · exact Option.noConfusion hn
                · have hsv : items = [] := Option.some.inj hs
                  subst hsv
                  simp at hlen
              · intro hname
                show (if req.Name ≠ "" then req.Name else t0.Name) = t0.Name
                rw [if_neg (not_not_intro hname)]
              · intro hdesc
                show (if req.Description ≠ "" then req.Description
                  else t0.Description) = t0.Description
                rw [if_neg (not_not_intro hdesc)]
              · intro hmt
                show (if req.MealType ≠ "" then req.MealType else t0.MealType)
                  = t0.MealType
                rw [if_neg (not_not_intro hmt)]
              · intro htags
                show (match req.Tags with
                  | some tags => tags
                  | none => t0.Tags) = t0.Tags
                rw [htags]
              · intro hpub
                show (match req.IsPublic with
                  | some b => b
                  | none => t0.IsPublic) = t0.IsPublic
                rw [hpub]
        · rw [if_neg hlen] at h
          simp only [Except.ok.injEq] at h
          subst h
          refine ⟨fun _ => ⟨rfl, rfl, rfl, rfl⟩, ?_, ?_, ?_, ?_, ?_, rfl, rfl, rfl, rfl⟩
          · intro hname
            show (if req.Name ≠ "" then req.Name else t0.Name) = t0.Name
            rw [if_neg (not_not_intro hname)]
          · intro hdesc
            show (if req.Description ≠ "" then req.Description
              else t0.Description) = t0.Description
            rw [if_neg (not_not_intro hdesc)]
          · intro hmt
            show (if req.MealType ≠ "" then req.MealType else t0.MealType)
              = t0.MealType
            rw [if_neg (not_not_intro hmt)]
          · intro htags
            show (match req.Tags with
              | some tags => tags
              | none => t0.Tags) = t0.Tags
            rw [htags]
          · intro hpub
            show (match req.IsPublic with
              | some b => b
              | none => t0.IsPublic) = t0.IsPublic
            rw [hpub]

/-- The stored witness template satisfies the totals invariant whenever the
witness repository returns it. -/
theorem cLookupTemplate_inv :
    ∀ t0, cLookupTemplate "m0" = some t0 → templateInvariant t0 := by
  intro t0 h
  have h2 : some cTemplate0 = some t0 := by
    rw [← h]
    with_unfolding_all rfl
  have h3 : cTemplate0 = t0 := Option.some.inj h2
  subst h3
  exact ⟨rfl, rfl, rfl⟩

/-- Witness for C3: a concrete create, add and update run, each landing in
a template that satisfies the totals invariant. -/
theorem claim_C3_witness :
    (∃ t, CreateTemplate cLookupFood "u1" "m1" 0 cCreateReq = Except.ok t
      ∧ templateInvariant t)
    ∧ (∃ t, AddFoodToTemplate cLookupTemplate cLookupFood "u1" "m0" 0
        ⟨[⟨"f1", "gram", 50⟩]⟩ = Except.ok t ∧ templateInvariant t)
    ∧ (∃ t, UpdateTemplate cLookupTemplate cLookupFood "u1" "m0" 0
        cEmptyUpdateReq = Except.ok t ∧ templateInvariant t) := by
  refine ⟨?_, ?_, ?_⟩
  · with_unfolding_all
      exact ⟨_, rfl,
        claim_C3_totals_invariant.1 cLookupFood "u1" "m1" 0 cCreateReq _ rfl⟩
  · with_unfolding_all
      exact ⟨_, rfl,
        claim_C3_totals_invariant.2.1 cLookupTemplate cLookupFood "u1" "m0" 0
          ⟨[⟨"f1", "gram", 50⟩]⟩ _ cLookupTemplate_inv rfl⟩
  · with_unfolding_all
      exact ⟨_, rfl,
        claim_C3_totals_invariant.2.2 cLookupTemplate cLookupFood "u1" "m0" 0
          cEmptyUpdateReq _ cLookupTemplate_inv rfl⟩

/-- Witness for C10: the empty update request leaves every stored field of
the witness template unchanged and refreshes only UpdatedAt. -/
theorem claim_C10_witness :
    UpdateTemplate cLookupTemplate cLookupFood "u1" "m0" 7 cEmptyUpdateReq
      = Except.ok cUpdated
    ∧ cUpdated.FoodItems = cTemplate0.FoodItems
    ∧ cUpdated.TotalCalories = cTemplate0.TotalCalories
    ∧ cUpdated.TotalMacros = cTemplate0.TotalMacros
    ∧ cUpdated.TotalMicros = cTemplate0.TotalMicros
    ∧ cUpdated.Name = cTemplate0.Name
    ∧ cUpdated.UpdatedAt = 7 := by
  have hlook : cLookupTemplate "m0" = some cTemplate0 := by
    with_unfolding_all rfl
  have hr : UpdateTemplate cLookupTemplate cLookupFood "u1" "m0" 7 cEmptyUpdateReq
      = Except.ok cUpdated := by
    with_unfolding_all rfl
  have h := claim_C10_update_frame cLookupTemplate cLookupFood "u1" "m0" 7
    cEmptyUpdateReq cTemplate0 cUpdated hlook hr
  obtain ⟨hframe, hname, -, -, -, -, -, -, -, hup⟩ := h
  obtain ⟨hfi, hc, hm, hmi⟩ := hframe (Or.inl rfl)
  exact ⟨hr, hfi, hc, hm, hmi, hname rfl, hup⟩

end NutrientBE
